import Mathlib

/-!
Verification of `vendor/github.com/republicprotocol/republic-go/grpc/swarm.go`
(darknode-cli vendored slice): the gRPC swarm client and service.

The Go code is shallowly embedded as pure Lean functions.  External
collaborators (the transport dialer, the gRPC stubs, the multi-address
store, the multi-address parser and the `swarm.Server` core) are passed in
as explicit parameters, and every network-visible action performed by a
client call is recorded in a trace of `NetEvent`s so that properties such
as "no dial is attempted" or "the connection is closed on every exit path"
are statable.
-/

namespace RepublicGrpc

/-- Byte strings (Go `[]byte`), modelled as lists of byte values. -/
abbrev Bytes := List Nat

/-- `identity.MultiAddress`: a peer's network address together with the
signature and nonce attached to it (`Signature` and `Nonce` fields in Go).
The structured multiaddress payload is abstracted to its canonical string
form, which is all `swarm.go` ever reads from it. -/
structure MultiAddress where
  addrString : String
  signature : Bytes
  nonce : Nat
  deriving Repr, DecidableEq

/-- Modelled from the spec: `identity.MultiAddress.IsNil` lives in the
`identity` package, which is outside this slice.  The spec says an Address
Record "with an empty address or a nil/empty address field is invalid", so
a record is nil exactly when its underlying address is empty. -/
def MultiAddress.isNil (m : MultiAddress) : Bool :=
  m.addrString = ""

/-- `identity.MultiAddress.String()`: the canonical serialized form. -/
def MultiAddress.str (m : MultiAddress) : String :=
  m.addrString

/-- `identity.MultiAddress{}`: the zero value returned by the client's
`MultiAddress` accessor when the store lookup fails. -/
def emptyMultiAddress : MultiAddress :=
  { addrString := "", signature := [], nonce := 0 }

/-- Go errors produced or propagated by `swarm.go`.  The named sentinel
errors declared at the top of the file are constants; `fmt.Errorf`
wrappings keep the wrapped inner error; errors coming from collaborators
(dial, store, parser, gRPC transport, `swarm.Server`) are opaque values
carried by `foreign`. -/
inductive GoError where
  | rateLimitExceeded
  | pingRequestIsNil
  | pongRequestIsNil
  | queryRequestIsNil
  | multiAddressIsNil
  | addressIsNil
  | cannotDial (inner : GoError)
  | cannotGetSelfDetails (inner : GoError)
  | cannotUnmarshalMultiAddress (inner : GoError)
  | cannotUpdateStore (inner : GoError)
  | cannotUpdateStorer (inner : GoError)
  | foreign (msg : String)
  deriving Repr, DecidableEq

/-- The spec's `InvalidInput` error category: nil/empty request, nil/empty
embedded address, empty identifier. -/
def GoError.isInvalidInput : GoError → Bool
  | .pingRequestIsNil => true
  | .pongRequestIsNil => true
  | .queryRequestIsNil => true
  | .multiAddressIsNil => true
  | .addressIsNil => true
  | _ => false

deriving instance DecidableEq for Except

/-- Wire message `MultiAddress` (protobuf): canonical address string,
signature bytes and nonce. -/
structure MultiAddressMsg where
  multiAddress : String
  signature : Bytes
  multiAddressNonce : Nat
  deriving Repr, DecidableEq

/-- Wire message `PingRequest`; its `MultiAddress` field is a pointer in
Go, hence an `Option` here. -/
structure PingRequest where
  multiAddress : Option MultiAddressMsg
  deriving Repr, DecidableEq

/-- Wire message `PongRequest`. -/
structure PongRequest where
  multiAddress : Option MultiAddressMsg
  deriving Repr, DecidableEq

/-- Wire message `QueryRequest`: the target address string. -/
structure QueryRequest where
  address : String
  deriving Repr, DecidableEq

/-- Wire message `PingResponse` (empty message). -/
structure PingResponse where
  deriving Repr, DecidableEq

/-- Wire message `PongResponse` (empty message). -/
structure PongResponse where
  deriving Repr, DecidableEq

/-- Wire message `QueryResponse`: a list of serialized multi-addresses. -/
structure QueryResponse where
  multiAddresses : List MultiAddressMsg
  deriving Repr, DecidableEq

/-- Modelled from the spec: the Backoff Policy (`grpc/backoff.go`, outside
this slice) "invoke[s] the operation; on failure, retry ... up to a
bounded number of attempts", "[r]eturns the last error if all attempts
fail, or nil on first success".  The operation is indexed by the attempt
number so that an operation whose outcome changes between attempts is
expressible; `retries` bounds the number of retries after the first
attempt.  `backoffAux op k n` runs attempts `k, k+1, ...` with `n` retries
remaining. -/
def backoffAux {α : Type} (op : Nat → Except GoError α) (k : Nat) : Nat → Except GoError α
  | 0 => op k
  | n + 1 =>
    match op k with
    | .ok a => .ok a
    | .error _ => backoffAux op (k + 1) n

/-- Modelled from the spec: see `backoffAux`. -/
def Backoff {α : Type} (retries : Nat) (op : Nat → Except GoError α) : Except GoError α :=
  backoffAux op 0 retries

/-- Number of attempts `backoffAux op k n` actually performs. -/
def backoffCountAux {α : Type} (op : Nat → Except GoError α) (k : Nat) : Nat → Nat
  | 0 => 1
  | n + 1 =>
    match op k with
    | .ok _ => 1
    | .error _ => 1 + backoffCountAux op (k + 1) n

/-- Number of attempts `Backoff retries op` actually performs. -/
def backoffCount {α : Type} (retries : Nat) (op : Nat → Except GoError α) : Nat :=
  backoffCountAux op 0 retries

/-- Network-visible actions of a client call, in the order they occur. -/
inductive NetEvent where
  | dialAttempt
  | rpcPing (request : PingRequest)
  | rpcPong (request : PongRequest)
  | rpcQuery (request : QueryRequest)
  | storeLookup
  | connClose
  deriving Repr, DecidableEq

/-- The external collaborators a `swarmClient` call interacts with.
`dial i` is the outcome `Dial(ctx, to)` would have on its `i`-th
invocation (the Go code invokes it exactly once, at index 0); the `rpc*`
fields give the outcome of the `k`-th gRPC attempt for a given request;
`storeMultiAddress` is `client.store.MultiAddress(client.addr)`; `parse`
is `identity.NewMultiAddressFromString`. -/
structure ClientEnv where
  dial : Nat → Except GoError Unit
  pingRPC : PingRequest → Nat → Except GoError PingResponse
  pongRPC : PongRequest → Nat → Except GoError PongResponse
  queryRPC : QueryRequest → Nat → Except GoError QueryResponse
  storeMultiAddress : Except GoError MultiAddress
  parse : String → Except GoError MultiAddress
  retries : Nat

/-- The `PingRequest` a client `Ping` call builds from a multi-address
(swarm.go lines 62-68). -/
def pingRequestOf (m : MultiAddress) : PingRequest :=
  { multiAddress := some
      { signature := m.signature
        multiAddress := m.str
        multiAddressNonce := m.nonce } }

/-- The `PongRequest` a client `Pong` call builds from a multi-address
(swarm.go lines 90-96). -/
def pongRequestOf (m : MultiAddress) : PongRequest :=
  { multiAddress := some
      { signature := m.signature
        multiAddress := m.str
        multiAddressNonce := m.nonce } }

/-- `swarmClient.Ping` (swarm.go lines 51-74): reject a nil multi-address,
dial, build the `PingRequest` from the multi-address, then run the Ping
RPC under `Backoff`; the connection is closed (deferred) on every path
after a successful dial. -/
def swarmClientPing (env : ClientEnv) (multiAddr : MultiAddress) :
    Except GoError Unit × List NetEvent :=
  if multiAddr.isNil then
    (.error .multiAddressIsNil, [])
  else
    match env.dial 0 with
    | .error e => (.error (.cannotDial e), [.dialAttempt])
    | .ok _ =>
      let request := pingRequestOf multiAddr
      let op := fun k => (env.pingRPC request k).map fun _ => ()
      (Backoff env.retries op,
        [.dialAttempt] ++ List.replicate (backoffCount env.retries op) (.rpcPing request)
          ++ [.connClose])

/-- `swarmClient.Pong` (swarm.go lines 76-102): dial first, then fetch the
caller's own record from the store, build the `PongRequest` from it, and
run the Pong RPC under `Backoff`; the connection is closed (deferred) on
every path after a successful dial, including the store-failure path. -/
def swarmClientPong (env : ClientEnv) : Except GoError Unit × List NetEvent :=
  match env.dial 0 with
  | .error e => (.error (.cannotDial e), [.dialAttempt])
  | .ok _ =>
    match env.storeMultiAddress with
    | .error e =>
      (.error (.cannotGetSelfDetails e), [.dialAttempt, .storeLookup, .connClose])
    | .ok multiAddr =>
      let request := pongRequestOf multiAddr
      let op := fun k => (env.pongRPC request k).map fun _ => ()
      (Backoff env.retries op,
        [.dialAttempt, .storeLookup]
          ++ List.replicate (backoffCount env.retries op) (.rpcPong request)
          ++ [.connClose])

/-- The response-parsing loop of `swarmClient.Query` (swarm.go lines
128-138): parse each entry, skip (with a warning log) entries that fail to
parse, and overwrite nonce and signature of parsed entries with the wire
values. -/
def parseMultiAddrs (parse : String → Except GoError MultiAddress) :
    List MultiAddressMsg → List MultiAddress
  | [] => []
  | msg :: rest =>
    match parse msg.multiAddress with
    | .error _ => parseMultiAddrs parse rest
    | .ok m =>
      { m with nonce := msg.multiAddressNonce, signature := msg.signature }
        :: parseMultiAddrs parse rest

/-- `swarmClient.Query` (swarm.go lines 105-140): reject an empty query
address, dial, run the Query RPC under `Backoff`, then parse the response
entries with `parseMultiAddrs`. -/
def swarmClientQuery (env : ClientEnv) (query : String) :
    Except GoError (List MultiAddress) × List NetEvent :=
  if query = "" then
    (.error .addressIsNil, [])
  else
    match env.dial 0 with
    | .error e => (.error (.cannotDial e), [.dialAttempt])
    | .ok _ =>
      let request : QueryRequest := { address := query }
      let op := fun k => env.queryRPC request k
      let trace :=
        [NetEvent.dialAttempt]
          ++ List.replicate (backoffCount env.retries op) (.rpcQuery request)
          ++ [.connClose]
      match Backoff env.retries op with
      | .error e => (.error e, trace)
      | .ok response => (.ok (parseMultiAddrs env.parse response.multiAddresses), trace)

/-- `swarmClient.MultiAddress` (swarm.go lines 143-150): return the
caller's own record from the store, or the zero record if the lookup
fails; this accessor has no error return. -/
def swarmClientMultiAddress (env : ClientEnv) : MultiAddress :=
  match env.storeMultiAddress with
  | .error _ => emptyMultiAddress
  | .ok m => m

/-- `SwarmService.Ping` (swarm.go lines 182-204).  The `swarm.Server`
delegate's `Ping` method and the multi-address parser are parameters.  Go
returns a `(*PingResponse, error)` pair, embedded as
`Option PingResponse × Option GoError`. -/
def swarmServicePing (parse : String → Except GoError MultiAddress)
    (serverPing : MultiAddress → Except GoError Unit)
    (request : Option PingRequest) : Option PingResponse × Option GoError :=
  match request with
  | none => (none, some .pingRequestIsNil)
  | some req =>
    match req.multiAddress with
    | none => (none, some .multiAddressIsNil)
    | some msg =>
      match parse msg.multiAddress with
      | .error e => (none, some (.cannotUnmarshalMultiAddress e))
      | .ok parsed =>
        let fromRecord : MultiAddress :=
          { parsed with signature := msg.signature, nonce := msg.multiAddressNonce }
        match serverPing fromRecord with
        | .error e => (some {}, some (.cannotUpdateStore e))
        | .ok _ => (some {}, none)

/-- `SwarmService.Pong` (swarm.go lines 212-235): same checks and parsing
as `swarmServicePing`, delegating to the server's `Pong` method, with its
own nil-request sentinel and core-failure message. -/
def swarmServicePong (parse : String → Except GoError MultiAddress)
    (serverPong : MultiAddress → Except GoError Unit)
    (request : Option PongRequest) : Option PongResponse × Option GoError :=
  match request with
  | none => (none, some .pongRequestIsNil)
  | some req =>
    match req.multiAddress with
    | none => (none, some .multiAddressIsNil)
    | some msg =>
      match parse msg.multiAddress with
      | .error e => (none, some (.cannotUnmarshalMultiAddress e))
      | .ok parsed =>
        let fromRecord : MultiAddress :=
          { parsed with signature := msg.signature, nonce := msg.multiAddressNonce }
        match serverPong fromRecord with
        | .error e => (some {}, some (.cannotUpdateStorer e))
        | .ok _ => (some {}, none)

/-- `SwarmService.Query` (swarm.go lines 242-268): reject a nil request or
empty address, delegate to the server's `Query` method (surfacing its
error directly), and serialize the resulting records in order. -/
def swarmServiceQuery (serverQuery : String → Except GoError (List MultiAddress))
    (request : Option QueryRequest) : Option QueryResponse × Option GoError :=
  match request with
  | none => (none, some .queryRequestIsNil)
  | some req =>
    if req.address = "" then
      (none, some .addressIsNil)
    else
      match serverQuery req.address with
      | .error e => (none, some e)
      | .ok multiAddrs =>
        (some { multiAddresses := multiAddrs.map fun m =>
            { multiAddress := m.str
              signature := m.signature
              multiAddressNonce := m.nonce } }, none)

/-- Translation of `SwarmService.Pong`'s error values into the
corresponding `SwarmService.Ping` error values: the two handlers use
distinct nil-request sentinels and distinct core-failure message wrappers,
and agree on everything else. -/
def pongErrToPingErr : GoError → GoError
  | .pongRequestIsNil => .pingRequestIsNil
  | .cannotUpdateStorer e => .cannotUpdateStore e
  | e => e

/-! Concrete sample collaborators and environments used to instantiate the
quantified theorems below at evaluable inputs. -/

/-- A concrete non-nil multi-address. -/
def sampleAddr : MultiAddress :=
  { addrString := "/ip4/1.2.3.4/tcp/18514/republic/8MGf", signature := [1, 2], nonce := 5 }

/-- A concrete parser: strings starting with `/` are well-formed and parse
to a record with that canonical form; anything else is malformed. -/
def sampleParse : String → Except GoError MultiAddress :=
  fun s =>
    match s.data with
    | '/' :: _ => .ok { addrString := s, signature := [], nonce := 0 }
    | _ => .error (.foreign "invalid multiaddress")

/-- A concrete `swarm.Server` Ping/Pong delegate: rejects nonces below 5 as
stale, accepts the rest. -/
def sampleCore : MultiAddress → Except GoError Unit :=
  fun m => if m.nonce < 5 then .error (.foreign "stale nonce") else .ok ()

/-- A concrete list of records a `swarm.Server` Query delegate returns. -/
def sampleRecords : List MultiAddress :=
  [sampleAddr, { addrString := "/ip4/5.6.7.8/tcp/18514/republic/9XYZ", signature := [7], nonce := 9 }]

/-- A concrete `swarm.Server` Query delegate: knows `target`, fails on
everything else. -/
def sampleQueryCore : String → Except GoError (List MultiAddress) :=
  fun s => if s = "target" then .ok sampleRecords else .error (.foreign "lookup failed")

/-- A concrete well-formed wire message. -/
def sampleMsg : MultiAddressMsg :=
  { multiAddress := "/ip4/1.2.3.4/tcp/18514/republic/8MGf", signature := [3], multiAddressNonce := 7 }

/-- A wire message whose address string parses under `sampleParse`. -/
def goodMsg : MultiAddressMsg :=
  { multiAddress := "/ip4/9.9.9.9/tcp/18514/republic/GOOD", signature := [9], multiAddressNonce := 4 }

/-- A wire message whose address string is malformed under `sampleParse`. -/
def badMsg : MultiAddressMsg :=
  { multiAddress := "not a multiaddress", signature := [8], multiAddressNonce := 3 }

/-- An environment in which every collaborator succeeds. -/
def okEnv : ClientEnv :=
  { dial := fun _ => .ok ()
    pingRPC := fun _ _ => .ok {}
    pongRPC := fun _ _ => .ok {}
    queryRPC := fun _ _ => .ok { multiAddresses := [] }
    storeMultiAddress := .ok sampleAddr
    parse := sampleParse
    retries := 2 }

/-- An environment whose store holds the empty (nil) record and whose
transport succeeds. -/
def pongEmptyStoreEnv : ClientEnv :=
  { okEnv with storeMultiAddress := .ok emptyMultiAddress }

/-- An environment in which the dial fails on its first invocation but
would succeed on any later one, and every RPC succeeds. -/
def transientDialEnv : ClientEnv :=
  { okEnv with
    dial := fun i => if i = 0 then .error (.foreign "connection refused") else .ok ()
    retries := 5 }

/-- An environment in which the dial succeeds and each RPC fails on
attempt 0 and succeeds from attempt 1 on. -/
def flakyRpcEnv : ClientEnv :=
  { okEnv with
    pingRPC := fun _ k => if k = 0 then .error (.foreign "unavailable") else .ok {}
    pongRPC := fun _ k => if k = 0 then .error (.foreign "unavailable") else .ok {}
    queryRPC := fun _ k =>
      if k = 0 then .error (.foreign "unavailable")
      else .ok { multiAddresses := [goodMsg] } }

/-- An environment whose Query RPC returns one well-formed and one
malformed entry. -/
def mixedQueryEnv : ClientEnv :=
  { okEnv with queryRPC := fun _ _ => .ok { multiAddresses := [goodMsg, badMsg] } }

/-! Helper lemmas. -/

/-- `parseMultiAddrs` is the order-preserving `filterMap` of the per-entry
parse step. -/
theorem parseMultiAddrs_eq_filterMap (parse : String → Except GoError MultiAddress)
    (msgs : List MultiAddressMsg) :
    parseMultiAddrs parse msgs = msgs.filterMap fun msg =>
      match parse msg.multiAddress with
      | .error _ => none
      | .ok m => some { m with nonce := msg.multiAddressNonce, signature := msg.signature } := by
  induction msgs with
  | nil => rfl
  | cons msg rest ih =>
    cases h : parse msg.multiAddress <;>
      simp [parseMultiAddrs, h, List.filterMap_cons, ih]

/-- If the operation fails on attempts `k, ..., k+j-1` and succeeds on
attempt `k+j` with `j` at most the remaining retry budget, `backoffAux`
returns that success. -/
theorem backoffAux_ok_of_eventually {α : Type} (op : Nat → Except GoError α) (a : α) :
    ∀ (j k n : Nat), j ≤ n → (∀ i, i < j → ∃ e, op (k + i) = .error e) →
      op (k + j) = .ok a → backoffAux op k n = .ok a := by
  intro j
  induction j with
  | zero =>
    intro k n _ _ hok
    cases n with
    | zero => simpa using hok
    | succ m => simp only [backoffAux]; rw [show k + 0 = k from rfl] at hok; rw [hok]
  | succ j ih =>
    intro k n hjn hfail hok
    cases n with
    | zero => omega
    | succ m =>
      obtain ⟨e0, he0⟩ := hfail 0 (Nat.succ_pos j)
      rw [show k + 0 = k from rfl] at he0
      simp only [backoffAux, he0]
      refine ih (k + 1) m (Nat.le_of_succ_le_succ hjn) ?_ ?_
      · intro i hi
        obtain ⟨e, he⟩ := hfail (i + 1) (Nat.succ_lt_succ hi)
        exact ⟨e, by rw [show k + 1 + i = k + (i + 1) by omega]; exact he⟩
      · rw [show k + 1 + j = k + (j + 1) by omega]; exact hok

/-- `Backoff` succeeds when the operation first succeeds within the retry
budget. -/
theorem backoff_ok_of_eventually {α : Type} (op : Nat → Except GoError α) (a : α)
    (j retries : Nat) (hj : j ≤ retries)
    (hfail : ∀ i, i < j → ∃ e, op i = .error e) (hok : op j = .ok a) :
    Backoff retries op = .ok a := by
  refine backoffAux_ok_of_eventually op a j 0 retries hj ?_ ?_
  · intro i hi; simpa using hfail i hi
  · simpa using hok

/-! Claim theorems. -/

/-- C4: `SwarmService.Query` rejects a nil request with the nil-request
error, rejects an empty target address before calling the core, surfaces a
core failure directly with a nil response, and on core success returns one
serialized entry per record, in the core's order, preserving address
string, signature and nonce. -/
theorem C4_service_query_behaviour (serverQuery : String → Except GoError (List MultiAddress))
    (a : String) (ha : a ≠ "") :
    swarmServiceQuery serverQuery none = (none, some .queryRequestIsNil)
      ∧ swarmServiceQuery serverQuery (some { address := "" }) = (none, some .addressIsNil)
      ∧ (∀ e, serverQuery a = .error e →
          swarmServiceQuery serverQuery (some { address := a }) = (none, some e))
      ∧ (∀ mas, serverQuery a = .ok mas →
          swarmServiceQuery serverQuery (some { address := a }) =
            (some { multiAddresses := mas.map fun m =>
                { multiAddress := m.str
                  signature := m.signature
                  multiAddressNonce := m.nonce } }, none)) := by
  refine ⟨rfl, rfl, ?_, ?_⟩ <;> intro x hx <;> simp [swarmServiceQuery, ha, hx]

/-- C4 witness: concrete instantiation at a core that knows `target`. -/
theorem C4_service_query_behaviour_witness :
    swarmServiceQuery sampleQueryCore (some { address := "target" }) =
      (some { multiAddresses := sampleRecords.map fun m =>
          { multiAddress := m.str
            signature := m.signature
            multiAddressNonce := m.nonce } }, none) :=
  (C4_service_query_behaviour sampleQueryCore "target" (by decide)).2.2.2 sampleRecords rfl

/-- C5: `SwarmService.Ping` rejects a nil request and a nil embedded
address with the nil-family errors, fails with the unmarshal error on a
malformed address string without consulting the core (the result is the
same for every core), and otherwise calls the core's `Ping` with the
parsed record carrying exactly the request's signature and nonce. -/
theorem C5_service_ping_behaviour (parse : String → Except GoError MultiAddress)
    (serverPing : MultiAddress → Except GoError Unit) (msg : MultiAddressMsg) :
    swarmServicePing parse serverPing none = (none, some .pingRequestIsNil)
      ∧ swarmServicePing parse serverPing (some { multiAddress := none }) =
          (none, some .multiAddressIsNil)
      ∧ GoError.pingRequestIsNil.isInvalidInput = true
      ∧ GoError.multiAddressIsNil.isInvalidInput = true
      ∧ (∀ e, parse msg.multiAddress = .error e →
          ∀ otherCore : MultiAddress → Except GoError Unit,
            swarmServicePing parse otherCore (some { multiAddress := some msg }) =
              (none, some (.cannotUnmarshalMultiAddress e)))
      ∧ (∀ m, parse msg.multiAddress = .ok m →
          swarmServicePing parse serverPing (some { multiAddress := some msg }) =
            (match serverPing { m with signature := msg.signature, nonce := msg.multiAddressNonce } with
             | .error e => (some {}, some (.cannotUpdateStore e))
             | .ok _ => (some {}, none))) := by
  refine ⟨rfl, rfl, rfl, rfl, ?_, ?_⟩
  · intro e he otherCore; simp [swarmServicePing, he]
  · intro m hm; simp [swarmServicePing, hm]

/-- C5 witness: concrete instantiation at a well-formed message whose
parsed record (nonce 7) the core accepts. -/
theorem C5_service_ping_behaviour_witness :
    swarmServicePing sampleParse sampleCore (some { multiAddress := some sampleMsg }) =
      (some {}, none) :=
  (C5_service_ping_behaviour sampleParse sampleCore sampleMsg).2.2.2.2.2
    { addrString := sampleMsg.multiAddress, signature := [], nonce := 0 } (by rfl)

/-- C7: a client `Query` with an empty target fails with the address-nil
error, which is in the `InvalidInput` category, and produces no network
events (no dial, no RPC). -/
theorem C7_client_query_empty_target (env : ClientEnv) :
    swarmClientQuery env "" = (.error .addressIsNil, [])
      ∧ GoError.addressIsNil.isInvalidInput = true := by
  exact ⟨by simp [swarmClientQuery], rfl⟩

/-- C9: the client's `MultiAddress` accessor is total: it returns the
stored record when the store lookup succeeds and the empty record when it
fails. -/
theorem C9_self_address_total (env : ClientEnv) :
    (∀ m, env.storeMultiAddress = .ok m → swarmClientMultiAddress env = m)
      ∧ (∀ e, env.storeMultiAddress = .error e →
          swarmClientMultiAddress env = emptyMultiAddress) := by
  constructor <;> intro x hx <;> simp [swarmClientMultiAddress, hx]

/-- C9 witness: with a store holding `sampleAddr` the accessor returns it. -/
theorem C9_self_address_total_witness :
    swarmClientMultiAddress okEnv = sampleAddr :=
  (C9_self_address_total okEnv).1 sampleAddr rfl

/-- C1 counterexample: when the local store holds the empty (nil) record,
the client's `Pong` still dials and the call succeeds — the record to be
sent is nil, yet no `InvalidInput` failure occurs and transport I/O
happens, contradicting the claim for `Pong`. -/
theorem C1_counterexample_pong_no_check :
    emptyMultiAddress.isNil = true
      ∧ (swarmClientPong pongEmptyStoreEnv).1 = .ok ()
      ∧ NetEvent.dialAttempt ∈ (swarmClientPong pongEmptyStoreEnv).2 := by
  refine ⟨rfl, rfl, ?_⟩
  simp [swarmClientPong, pongEmptyStoreEnv, okEnv]

/-- C1 amended: `Ping` with a nil record fails with the multi-address-nil
error (an `InvalidInput`) before any network event; `Pong` performs no
pre-dial validation at all — its first network action is always the dial,
whatever the store holds. -/
theorem C1_amended_ping_checks_pong_dials_first (env : ClientEnv) (m : MultiAddress)
    (h : m.isNil = true) :
    swarmClientPing env m = (.error .multiAddressIsNil, [])
      ∧ GoError.multiAddressIsNil.isInvalidInput = true
      ∧ (swarmClientPong env).2.head? = some .dialAttempt := by
  refine ⟨by simp [swarmClientPing, h], rfl, ?_⟩
  unfold swarmClientPong
  cases env.dial 0 with
  | error e => rfl
  | ok u => cases env.storeMultiAddress with
    | error e => rfl
    | ok m2 => rfl

/-- C1 amended witness: concrete instantiation at the empty record. -/
theorem C1_amended_witness :
    swarmClientPing okEnv emptyMultiAddress = (.error .multiAddressIsNil, []) :=
  (C1_amended_ping_checks_pong_dials_first okEnv emptyMultiAddress rfl).1

/-- C2: the service has no rate limiting.  `Ping` and `Pong` never return
the rate-limit error at all, under any parser, core and request; `Query`
returns it only if the delegated core itself returned it — i.e. never
without invoking a core method, contradicting the documented purpose of
`ErrRateLimitExceeded` and the spec's protocol-level guard. -/
theorem C2_no_rate_limiting (parse : String → Except GoError MultiAddress)
    (pingCore pongCore : MultiAddress → Except GoError Unit)
    (queryCore : String → Except GoError (List MultiAddress))
    (pingReq : Option PingRequest) (pongReq : Option PongRequest)
    (a : String) :
    (swarmServicePing parse pingCore pingReq).2 ≠ some .rateLimitExceeded
      ∧ (swarmServicePong parse pongCore pongReq).2 ≠ some .rateLimitExceeded
      ∧ ((swarmServiceQuery queryCore (some { address := a })).2 = some .rateLimitExceeded →
          a ≠ "" ∧ queryCore a = .error .rateLimitExceeded) := by
  refine ⟨?_, ?_, ?_⟩
  · match pingReq with
    | none => simp [swarmServicePing]
    | some req =>
      match hmsg : req.multiAddress with
      | none => simp [swarmServicePing, hmsg]
      | some msg =>
        cases hp : parse msg.multiAddress with
        | error e => simp [swarmServicePing, hmsg, hp]
        | ok m =>
          cases hc : pingCore { m with signature := msg.signature, nonce := msg.multiAddressNonce } with
          | error e => simp [swarmServicePing, hmsg, hp, hc]
          | ok u => simp [swarmServicePing, hmsg, hp, hc]
  · match pongReq with
    | none => simp [swarmServicePong]
    | some req =>
      match hmsg : req.multiAddress with
      | none => simp [swarmServicePong, hmsg]
      | some msg =>
        cases hp : parse msg.multiAddress with
        | error e => simp [swarmServicePong, hmsg, hp]
        | ok m =>
          cases hc : pongCore { m with signature := msg.signature, nonce := msg.multiAddressNonce } with
          | error e => simp [swarmServicePong, hmsg, hp, hc]
          | ok u => simp [swarmServicePong, hmsg, hp, hc]
  · intro hout
    by_cases ha : a = ""
    · subst ha; simp [swarmServiceQuery] at hout
    · refine ⟨ha, ?_⟩
      cases hc : queryCore a with
      | error e =>
        simp [swarmServiceQuery, ha, hc] at hout
        rw [hout]
      | ok mas => simp [swarmServiceQuery, ha, hc] at hout

/-- C2 witness: two back-to-back identical Ping requests from the same
caller are both fully processed with no rate-limit rejection — the handler
is stateless in the caller, so the second request's outcome is the
first's, and neither is the rate-limit error. -/
theorem C2_no_rate_limiting_witness :
    (swarmServicePing sampleParse sampleCore (some { multiAddress := some sampleMsg })).2
        ≠ some .rateLimitExceeded
      ∧ (swarmServicePing sampleParse sampleCore (some { multiAddress := some sampleMsg })).2
        = (swarmServicePing sampleParse sampleCore (some { multiAddress := some sampleMsg })).2 :=
  ⟨(C2_no_rate_limiting sampleParse sampleCore sampleCore sampleQueryCore
      (some { multiAddress := some sampleMsg }) (some { multiAddress := some sampleMsg }) "t").1,
    rfl⟩

/-- C3 counterexample: the dial fails on its only invocation although it
would have succeeded on the next attempt; the client's `Ping` returns the
dial failure immediately, having performed exactly one dial attempt and no
RPC attempts — the dial is not executed under the Backoff Policy, so this
failure propagates as a single hard failure without being retried. -/
theorem C3_counterexample_dial_not_retried :
    swarmClientPing transientDialEnv sampleAddr
        = (.error (.cannotDial (.foreign "connection refused")), [.dialAttempt])
      ∧ transientDialEnv.dial 1 = .ok () := by
  constructor
  · simp [swarmClientPing, transientDialEnv, okEnv, sampleAddr, MultiAddress.isNil]
  · rfl

/-- C3 amended: for each of the client's `Ping`, `Pong` and `Query`, only
the RPC step runs under the Backoff Policy.  A dial failure propagates
immediately from all three calls with exactly one dial attempt and no RPC
attempt, while an RPC that fails on every attempt before `j` and succeeds
at attempt `j ≤ retries` yields overall success for each call. -/
theorem C3_amended_only_rpc_backoff (env : ClientEnv) (m : MultiAddress) (q : String)
    (j : Nat) (hm : m.isNil = false) (hq : ¬ q = "") :
    (∀ e, env.dial 0 = .error e →
        swarmClientPing env m = (.error (.cannotDial e), [.dialAttempt])
          ∧ swarmClientPong env = (.error (.cannotDial e), [.dialAttempt])
          ∧ swarmClientQuery env q = (.error (.cannotDial e), [.dialAttempt]))
      ∧ (env.dial 0 = .ok () → j ≤ env.retries →
          (∀ i, i < j → ∃ e, env.pingRPC (pingRequestOf m) i = .error e) →
          env.pingRPC (pingRequestOf m) j = .ok {} →
          (swarmClientPing env m).1 = .ok ())
      ∧ (∀ sm, env.dial 0 = .ok () → env.storeMultiAddress = .ok sm → j ≤ env.retries →
          (∀ i, i < j → ∃ e, env.pongRPC (pongRequestOf sm) i = .error e) →
          env.pongRPC (pongRequestOf sm) j = .ok {} →
          (swarmClientPong env).1 = .ok ())
      ∧ (∀ resp, env.dial 0 = .ok () → j ≤ env.retries →
          (∀ i, i < j → ∃ e, env.queryRPC { address := q } i = .error e) →
          env.queryRPC { address := q } j = .ok resp →
          (swarmClientQuery env q).1 = .ok (parseMultiAddrs env.parse resp.multiAddresses)) := by
  refine ⟨?_, ?_, ?_, ?_⟩
  · intro e he
    exact ⟨by simp [swarmClientPing, hm, he], by simp [swarmClientPong, he],
      by simp [swarmClientQuery, hq, he]⟩
  · intro hdial hj hfail hok
    have hback : Backoff env.retries (fun k => (env.pingRPC (pingRequestOf m) k).map fun _ => ())
        = .ok () := by
      refine backoff_ok_of_eventually _ () j env.retries hj ?_ ?_
      · intro i hi
        obtain ⟨e, he⟩ := hfail i hi
        exact ⟨e, by rw [he]; rfl⟩
      · rw [hok]; rfl
    simp [swarmClientPing, hm, hdial, hback]
  · intro sm hdial hstore hj hfail hok
    have hback : Backoff env.retries (fun k => (env.pongRPC (pongRequestOf sm) k).map fun _ => ())
        = .ok () := by
      refine backoff_ok_of_eventually _ () j env.retries hj ?_ ?_
      · intro i hi
        obtain ⟨e, he⟩ := hfail i hi
        exact ⟨e, by rw [he]; rfl⟩
      · rw [hok]; rfl
    simp [swarmClientPong, hdial, hstore, hback]
  · intro resp hdial hj hfail hok
    have hback : Backoff env.retries (fun k => env.queryRPC { address := q } k) = .ok resp :=
      backoff_ok_of_eventually _ resp j env.retries hj hfail hok
    simp [swarmClientQuery, hq, hdial, hback]

/-- C3 amended witness: with a dial that succeeds and RPCs failing on
attempt 0 and succeeding on attempt 1 (within a retry budget of 2), the
client's `Ping`, `Pong` and `Query` all succeed. -/
theorem C3_amended_witness :
    (swarmClientPing flakyRpcEnv sampleAddr).1 = .ok ()
      ∧ (swarmClientPong flakyRpcEnv).1 = .ok ()
      ∧ (swarmClientQuery flakyRpcEnv "target").1 =
          .ok [{ addrString := goodMsg.multiAddress, signature := [9], nonce := 4 }] :=
  ⟨(C3_amended_only_rpc_backoff flakyRpcEnv sampleAddr "target" 1 rfl (by decide)).2.1 rfl
      (by decide)
      (fun i hi => ⟨.foreign "unavailable", by
        have hz : i = 0 := Nat.lt_one_iff.mp hi
        subst hz; rfl⟩)
      rfl,
    (C3_amended_only_rpc_backoff flakyRpcEnv sampleAddr "target" 1 rfl (by decide)).2.2.1
      sampleAddr rfl rfl (by decide)
      (fun i hi => ⟨.foreign "unavailable", by
        have hz : i = 0 := Nat.lt_one_iff.mp hi
        subst hz; rfl⟩)
      rfl,
    (C3_amended_only_rpc_backoff flakyRpcEnv sampleAddr "target" 1 rfl (by decide)).2.2.2
      { multiAddresses := [goodMsg] } rfl (by decide)
      (fun i hi => ⟨.foreign "unavailable", by
        have hz : i = 0 := Nat.lt_one_iff.mp hi
        subst hz; rfl⟩)
      rfl⟩

/-- C6: when the dial succeeds and the Query RPC (under Backoff) returns a
response, the client's `Query` succeeds and returns exactly the entries
that parse, each carrying the wire signature and nonce, in the response's
order (an order-preserving `filterMap`); malformed entries are skipped,
not fatal. -/
theorem C6_query_skips_malformed (env : ClientEnv) (q : String)
    (msgs : List MultiAddressMsg) (hq : ¬ q = "") (hdial : env.dial 0 = .ok ())
    (hrpc : Backoff env.retries (fun k => env.queryRPC { address := q } k)
        = .ok { multiAddresses := msgs }) :
    (swarmClientQuery env q).1 = .ok (msgs.filterMap fun msg =>
      match env.parse msg.multiAddress with
      | .error _ => none
      | .ok m => some { m with nonce := msg.multiAddressNonce, signature := msg.signature }) := by
  simp [swarmClientQuery, hq, hdial, hrpc, parseMultiAddrs_eq_filterMap]

/-- C6 witness: a response with one well-formed and one malformed entry
yields success with exactly the one parsed record, carrying the wire
signature and nonce. -/
theorem C6_query_skips_malformed_witness :
    (swarmClientQuery mixedQueryEnv "target").1 =
      .ok [{ addrString := goodMsg.multiAddress, signature := [9], nonce := 4 }] :=
  C6_query_skips_malformed mixedQueryEnv "target" [goodMsg, badMsg] (by decide) rfl rfl

/-- C8: whenever the dial succeeds, every client call that attempted the
dial also closes the connection before returning, on every exit path —
for `Ping`, `Pong` and `Query` alike. -/
theorem C8_conn_released (env : ClientEnv) (m : MultiAddress) (q : String)
    (h : env.dial 0 = .ok ()) :
    (NetEvent.dialAttempt ∈ (swarmClientPing env m).2 →
        NetEvent.connClose ∈ (swarmClientPing env m).2)
      ∧ (NetEvent.dialAttempt ∈ (swarmClientPong env).2 →
          NetEvent.connClose ∈ (swarmClientPong env).2)
      ∧ (NetEvent.dialAttempt ∈ (swarmClientQuery env q).2 →
          NetEvent.connClose ∈ (swarmClientQuery env q).2) := by
  refine ⟨?_, ?_, ?_⟩
  · intro hmem
    by_cases hnil : m.isNil
    · simp [swarmClientPing, hnil] at hmem
    · simp [swarmClientPing, hnil, h]
  · intro hmem
    cases hs : env.storeMultiAddress with
    | error e => simp [swarmClientPong, h, hs]
    | ok m2 => simp [swarmClientPong, h, hs]
  · intro hmem
    by_cases hq : q = ""
    · simp [swarmClientQuery, hq] at hmem
    · cases hb : Backoff env.retries (fun k => env.queryRPC { address := q } k) with
      | error e => simp [swarmClientQuery, hq, h, hb]
      | ok resp => simp [swarmClientQuery, hq, h, hb]

/-- C8 witness: in the all-success environment, the Ping call's trace
contains the connection close. -/
theorem C8_conn_released_witness :
    NetEvent.connClose ∈ (swarmClientPing okEnv sampleAddr).2 :=
  (C8_conn_released okEnv sampleAddr "t" rfl).1 (by decide)

/-- C10: the service's `Ping` and `Pong` handlers are equivalent up to the
delegated core method: with the same parser and the same core they agree
on response presence, their errors correspond under the sentinel/message
renaming `pongErrToPingErr`, a core rejection yields a non-nil empty
response together with the respective core-failure error, parse failures
yield a nil response in both, and the validation failures (nil request,
nil embedded address) yield a nil response in both. -/
theorem C10_ping_pong_equivalent (parse : String → Except GoError MultiAddress)
    (core : MultiAddress → Except GoError Unit) (r : Option (Option MultiAddressMsg)) :
    ((swarmServicePing parse core (r.map fun m => { multiAddress := m })).1.isSome
        = (swarmServicePong parse core (r.map fun m => { multiAddress := m })).1.isSome)
      ∧ ((swarmServicePing parse core (r.map fun m => { multiAddress := m })).2
          = ((swarmServicePong parse core (r.map fun m => { multiAddress := m })).2.map
              pongErrToPingErr))
      ∧ (∀ msg mrec e, parse msg.multiAddress = .ok mrec →
          core { mrec with signature := msg.signature, nonce := msg.multiAddressNonce } = .error e →
            swarmServicePing parse core (some { multiAddress := some msg })
                = (some {}, some (.cannotUpdateStore e))
              ∧ swarmServicePong parse core (some { multiAddress := some msg })
                = (some {}, some (.cannotUpdateStorer e)))
      ∧ (∀ msg e, parse msg.multiAddress = .error e →
          (swarmServicePing parse core (some { multiAddress := some msg })).1 = none
            ∧ (swarmServicePong parse core (some { multiAddress := some msg })).1 = none)
      ∧ ((swarmServicePing parse core none).1 = none
          ∧ (swarmServicePong parse core none).1 = none
          ∧ (swarmServicePing parse core (some { multiAddress := none })).1 = none
          ∧ (swarmServicePong parse core (some { multiAddress := none })).1 = none) := by
  refine ⟨?_, ?_, ?_, ?_, rfl, rfl, rfl, rfl⟩
  case _ | _ =>
    match r with
    | none => simp [swarmServicePing, swarmServicePong, pongErrToPingErr]
    | some none => simp [swarmServicePing, swarmServicePong, pongErrToPingErr]
    | some (some msg) =>
      cases hp : parse msg.multiAddress with
      | error e => simp [swarmServicePing, swarmServicePong, hp, pongErrToPingErr]
      | ok mrec =>
        cases hc : core { mrec with signature := msg.signature, nonce := msg.multiAddressNonce } with
        | error e => simp [swarmServicePing, swarmServicePong, hp, hc, pongErrToPingErr]
        | ok u => simp [swarmServicePing, swarmServicePong, hp, hc, pongErrToPingErr]
  case _ =>
    intro msg mrec e hp hc
    constructor <;> simp [swarmServicePing, swarmServicePong, hp, hc]
  case _ =>
    intro msg e hp
    constructor <;> simp [swarmServicePing, swarmServicePong, hp]

/-- C10 witness: at a well-formed message whose record the sample core
rejects (stale nonce 4 < 5), both handlers return the non-nil empty
response with their respective core-failure errors. -/
theorem C10_ping_pong_equivalent_witness :
    swarmServicePing sampleParse sampleCore (some { multiAddress := some goodMsg })
        = (some {}, some (.cannotUpdateStore (.foreign "stale nonce")))
      ∧ swarmServicePong sampleParse sampleCore (some { multiAddress := some goodMsg })
        = (some {}, some (.cannotUpdateStorer (.foreign "stale nonce"))) :=
  (C10_ping_pong_equivalent sampleParse sampleCore (some (some goodMsg))).2.2.1 goodMsg
    { addrString := goodMsg.multiAddress, signature := [], nonce := 0 } (.foreign "stale nonce")
    (by rfl) (by rfl)

end RepublicGrpc
